import Mathlib

/-!
Shallow embedding of the Mergington High School activities service
(`src/app.py` route handlers and `src/db.py` persistence layer).

The relational store (SQLite via SQLModel) is modelled as lists of rows
together with per-table autoincrement counters for the surrogate primary
keys.  `select(...).where(...).first()` becomes `List.find?` in insertion
order, `.all()` becomes `List.filter`, `session.delete(row)` deletes by
primary key, and a committed write is an update of the `DB` record.
Python `int` fields are `Int`; Python truthiness of `max_participants`
(`if activity.max_participants and ...`) is the test `≠ 0`.

Each HTTP handler returns the (committed) store next to either a success
message or an `HTTPException`; raising the exception inside the
`with get_session()` block keeps every write committed before the raise
(in `signup_for_activity` the freshly created `User` is committed before
the duplicate/capacity checks) and discards nothing else, since each
write in the source is followed immediately by its own commit.
-/

namespace Mergington

/-- Row of the `activity` table (`db.py`, class `Activity`). -/
structure Activity where
  id : Nat
  name : String
  description : Option String
  schedule : Option String
  max_participants : Int
  deriving DecidableEq, Repr

/-- Row of the `user` table (`db.py`, class `User`). -/
structure User where
  id : Nat
  email : String
  deriving DecidableEq, Repr

/-- Row of the `participation` table (`db.py`, class `Participation`). -/
structure Participation where
  id : Nat
  activity_id : Nat
  user_id : Nat
  deriving DecidableEq, Repr

/-- An HTTP error as raised by the handlers (`fastapi.HTTPException`). -/
structure HTTPException where
  status_code : Nat
  detail : String
  deriving DecidableEq, Repr

/-- The relational store: one list of rows per table, in insertion order,
plus the autoincrement counter of each table's surrogate primary key. -/
structure DB where
  activities : List Activity
  users : List User
  participations : List Participation
  nextActivityId : Nat
  nextUserId : Nat
  nextParticipationId : Nat
  deriving DecidableEq, Repr

/-- The empty store right after `init_db()` created the tables. -/
def emptyDB : DB := ⟨[], [], [], 1, 1, 1⟩

/-- The fixed seed list `initial` of `seed_initial_activities_if_needed`
(`db.py` lines 49-104): name, description, schedule, max_participants. -/
def initial : List (String × String × String × Int) :=
  [ ("Chess Club", "Learn strategies and compete in chess tournaments",
      "Fridays, 3:30 PM - 5:00 PM", 12),
    ("Programming Class", "Learn programming fundamentals and build software projects",
      "Tuesdays and Thursdays, 3:30 PM - 4:30 PM", 20),
    ("Gym Class", "Physical education and sports activities",
      "Mondays, Wednesdays, Fridays, 2:00 PM - 3:00 PM", 30),
    ("Soccer Team", "Join the school soccer team and compete in matches",
      "Tuesdays and Thursdays, 4:00 PM - 5:30 PM", 22),
    ("Basketball Team", "Practice and play basketball with the school team",
      "Wednesdays and Fridays, 3:30 PM - 5:00 PM", 15),
    ("Art Club", "Explore your creativity through painting and drawing",
      "Thursdays, 3:30 PM - 5:00 PM", 15),
    ("Drama Club", "Act, direct, and produce plays and performances",
      "Mondays and Wednesdays, 4:00 PM - 5:30 PM", 20),
    ("Math Club", "Solve challenging problems and participate in math competitions",
      "Tuesdays, 3:30 PM - 4:30 PM", 10),
    ("Debate Team", "Develop public speaking and argumentation skills",
      "Fridays, 4:00 PM - 5:30 PM", 12) ]

/-- The nine seed `Activity` rows as inserted from `startId` on:
`Activity(**a)` for each entry of `initial`, committed in order, so the
autoincrement key assigns consecutive ids. -/
def seedRows (startId : Nat) : List Activity :=
  (initial.enum).map fun x =>
    ⟨startId + x.1, x.2.1, some x.2.2.1, some x.2.2.2.1, x.2.2.2.2⟩

/-- `seed_initial_activities_if_needed` (`db.py` lines 43-113): if
`select(Activity).first()` is `None` (no `Activity` rows at all), insert
the nine seed rows; otherwise do nothing. -/
def seed_initial_activities_if_needed (db : DB) : DB :=
  match db.activities with
  | [] =>
      { db with
        activities := seedRows db.nextActivityId,
        nextActivityId := db.nextActivityId + initial.length }
  | _ => db

/-- The emails of the participants of activity `aid`, via the join
`select(User.email).join(Participation, …).where(Participation.activity_id == aid)`
(`db.py` lines 123-129), enumerated in participation insertion order. -/
def activityParticipants (db : DB) (aid : Nat) : List String :=
  (db.participations.filter (fun p => p.activity_id == aid)).filterMap
    (fun p => (db.users.find? (fun u => u.id == p.user_id)).map User.email)

/-- Value part of one entry of `activities_as_dict` (`db.py` lines 130-135). -/
structure ActivityInfo where
  description : Option String
  schedule : Option String
  max_participants : Int
  participants : List String
  deriving DecidableEq, Repr

/-- `activities_as_dict` (`db.py` lines 116-136): one entry per `Activity`
row, keyed by name, with the joined participant emails.  The source reads
the store and writes nothing, so it is a pure function of the store. -/
def activities_as_dict (db : DB) : List (String × ActivityInfo) :=
  db.activities.map fun a =>
    (a.name, ⟨a.description, a.schedule, a.max_participants,
              activityParticipants db a.id⟩)

/-- The `GET /activities` handler `get_activities` (`app.py` lines 35-37):
returns `activities_as_dict()` and performs no writes, so the store half
of the result is the input store itself. -/
def get_activities (db : DB) : DB × List (String × ActivityInfo) :=
  (db, activities_as_dict db)

/-- The "ensure user exists" step of `signup_for_activity`
(`app.py` lines 51-57): look the `User` up by email; if absent, insert a
fresh row and commit it at once. -/
def ensure_user (db : DB) (email : String) : DB × User :=
  match db.users.find? (fun u => u.email == email) with
  | some u => (db, u)
  | none =>
      let u : User := ⟨db.nextUserId, email⟩
      ({ db with users := db.users ++ [u], nextUserId := db.nextUserId + 1 }, u)

/-- `POST /activities/{activity_name}/signup` handler `signup_for_activity`
(`app.py` lines 40-80).  Returns the committed store together with either
the success message or the raised `HTTPException`. -/
def signup_for_activity (db : DB) (activity_name : String) (email : String) :
    DB × Except HTTPException String :=
  match db.activities.find? (fun a => a.name == activity_name) with
  | none => (db, Except.error ⟨404, "Activity not found"⟩)
  | some activity =>
      let eu := ensure_user db email
      let db1 := eu.1
      let user := eu.2
      match db1.participations.find?
          (fun p => p.activity_id == activity.id && p.user_id == user.id) with
      | some _ => (db1, Except.error ⟨400, "Student is already signed up"⟩)
      | none =>
          let participants :=
            db1.participations.filter (fun p => p.activity_id == activity.id)
          if activity.max_participants ≠ 0 ∧
              (participants.length : Int) ≥ activity.max_participants then
            (db1, Except.error ⟨400, "Activity is full"⟩)
          else
            let p : Participation := ⟨db1.nextParticipationId, activity.id, user.id⟩
            ({ db1 with
                participations := db1.participations ++ [p],
                nextParticipationId := db1.nextParticipationId + 1 },
             Except.ok ("Signed up " ++ email ++ " for " ++ activity_name))

/-- `DELETE /activities/{activity_name}/unregister` handler
`unregister_from_activity` (`app.py` lines 83-108).  `session.delete`
removes the found row by its primary key. -/
def unregister_from_activity (db : DB) (activity_name : String) (email : String) :
    DB × Except HTTPException String :=
  match db.activities.find? (fun a => a.name == activity_name) with
  | none => (db, Except.error ⟨404, "Activity not found"⟩)
  | some activity =>
      match db.users.find? (fun u => u.email == email) with
      | none =>
          (db, Except.error ⟨400, "Student is not signed up for this activity"⟩)
      | some user =>
          match db.participations.find?
              (fun p => p.activity_id == activity.id && p.user_id == user.id) with
          | none =>
              (db, Except.error ⟨400, "Student is not signed up for this activity"⟩)
          | some participation =>
              ({ db with
                  participations :=
                    db.participations.filter (fun p => p.id != participation.id) },
               Except.ok ("Unregistered " ++ email ++ " from " ++ activity_name))

/-- Number of `Participation` rows of activity `aid` (the `len(participants)`
of the capacity check, `app.py` lines 70-72). -/
def participantCount (db : DB) (aid : Nat) : Nat :=
  (db.participations.filter (fun p => p.activity_id == aid)).length

/-- The duplicate-signup check of the handlers, as a predicate on the store:
the first `User` row with this email (if any) has a `Participation` row for
activity `aid`. -/
def signedUp (db : DB) (aid : Nat) (email : String) : Bool :=
  match db.users.find? (fun u => u.email == email) with
  | none => false
  | some u =>
      (db.participations.find?
        (fun p => p.activity_id == aid && p.user_id == u.id)).isSome

/-- Well-formedness of the store as the autoincrement primary keys
guarantee it: every row id is below its table's counter, and foreign
`user_id` keys of `participation` rows reference already-allocated ids. -/
def WF (db : DB) : Prop :=
  (∀ u ∈ db.users, u.id < db.nextUserId) ∧
  (∀ p ∈ db.participations, p.id < db.nextParticipationId) ∧
  (∀ p ∈ db.participations, p.user_id < db.nextUserId)

instance (db : DB) : Decidable (WF db) := by
  unfold WF; infer_instance

/-- One sequential API call against the store (C10's operation alphabet). -/
inductive Op where
  | signup (activity_name email : String)
  | unregister (activity_name email : String)
  deriving DecidableEq, Repr

/-- Apply one API call, keeping only the committed store. -/
def applyOp (db : DB) : Op → DB
  | Op.signup n e => (signup_for_activity db n e).1
  | Op.unregister n e => (unregister_from_activity db n e).1

/-- Run a sequence of API calls left to right. -/
def runOps (db : DB) (ops : List Op) : DB :=
  ops.foldl applyOp db

/-- Capacity invariant: every activity with positive capacity has at most
`max_participants` participation rows. -/
def CapInv (db : DB) : Prop :=
  ∀ a ∈ db.activities, 0 < a.max_participants →
    (participantCount db a.id : Int) ≤ a.max_participants

instance (db : DB) : Decidable (CapInv db) := by
  unfold CapInv; infer_instance

/-! ## Basic facts about the embedded operations -/

lemma ensure_user_activities (db : DB) (e : String) :
    (ensure_user db e).1.activities = db.activities := by
  unfold ensure_user
  cases h : db.users.find? (fun u => u.email == e) <;> rfl

lemma ensure_user_participations (db : DB) (e : String) :
    (ensure_user db e).1.participations = db.participations := by
  unfold ensure_user
  cases h : db.users.find? (fun u => u.email == e) <;> rfl

lemma ensure_user_nextParticipationId (db : DB) (e : String) :
    (ensure_user db e).1.nextParticipationId = db.nextParticipationId := by
  unfold ensure_user
  cases h : db.users.find? (fun u => u.email == e) <;> rfl

lemma ensure_user_nextActivityId (db : DB) (e : String) :
    (ensure_user db e).1.nextActivityId = db.nextActivityId := by
  unfold ensure_user
  cases h : db.users.find? (fun u => u.email == e) <;> rfl

lemma ensure_user_nextUserId_ge (db : DB) (e : String) :
    db.nextUserId ≤ (ensure_user db e).1.nextUserId := by
  unfold ensure_user
  cases h : db.users.find? (fun u => u.email == e) <;> simp

lemma ensure_user_of_found (db : DB) (e : String) (u : User)
    (h : db.users.find? (fun u => u.email == e) = some u) :
    ensure_user db e = (db, u) := by
  unfold ensure_user; rw [h]

lemma ensure_user_of_missing (db : DB) (e : String)
    (h : db.users.find? (fun u => u.email == e) = none) :
    ensure_user db e =
      ({ db with users := db.users ++ [⟨db.nextUserId, e⟩],
                 nextUserId := db.nextUserId + 1 }, ⟨db.nextUserId, e⟩) := by
  unfold ensure_user; rw [h]

lemma ensure_user_find_self (db : DB) (e : String) :
    (ensure_user db e).1.users.find? (fun u => u.email == e) =
      some (ensure_user db e).2 := by
  unfold ensure_user
  cases h : db.users.find? (fun u => u.email == e) with
  | none => simp [List.find?_append, h]
  | some u => simpa using h

lemma ensure_user_id_lt (db : DB) (e : String)
    (h : ∀ u ∈ db.users, u.id < db.nextUserId) :
    (ensure_user db e).2.id < (ensure_user db e).1.nextUserId := by
  unfold ensure_user
  cases hf : db.users.find? (fun u => u.email == e) with
  | none => simp
  | some u => simpa using h u (List.mem_of_find?_eq_some hf)

lemma dup_check_none (db : DB) (aid : Nat) (e : String)
    (hfresh : ∀ p ∈ db.participations, p.user_id < db.nextUserId)
    (hnot : signedUp db aid e = false) :
    db.participations.find?
      (fun p => p.activity_id == aid && p.user_id == (ensure_user db e).2.id) = none := by
  unfold signedUp at hnot
  unfold ensure_user
  cases hf : db.users.find? (fun u => u.email == e) with
  | some u =>
      rw [hf] at hnot
      have hnot2 : (db.participations.find?
          (fun p => p.activity_id == aid && p.user_id == u.id)).isSome = false := hnot
      cases hfp : db.participations.find?
          (fun p => p.activity_id == aid && p.user_id == u.id) with
      | none => rfl
      | some q => rw [hfp] at hnot2; simp at hnot2
  | none =>
      simp only []
      rw [List.find?_eq_none]
      intro p hp
      have := hfresh p hp
      simp only [Bool.and_eq_true, beq_iff_eq, not_and]
      intro _ h2
      omega

lemma signup_of_no_activity (db : DB) (n e : String)
    (hfind : db.activities.find? (fun a => a.name == n) = none) :
    signup_for_activity db n e = (db, Except.error ⟨404, "Activity not found"⟩) := by
  unfold signup_for_activity
  rw [hfind]

lemma signup_of_dup (db : DB) (n e : String) (activity : Activity)
    (hfind : db.activities.find? (fun a => a.name == n) = some activity)
    (p : Participation)
    (hdup : (ensure_user db e).1.participations.find?
      (fun p => p.activity_id == activity.id && p.user_id == (ensure_user db e).2.id) = some p) :
    signup_for_activity db n e =
      ((ensure_user db e).1, Except.error ⟨400, "Student is already signed up"⟩) := by
  unfold signup_for_activity
  rw [hfind]
  simp only [hdup]

lemma signup_of_full (db : DB) (n e : String) (activity : Activity)
    (hfind : db.activities.find? (fun a => a.name == n) = some activity)
    (hfresh : ∀ p ∈ db.participations, p.user_id < db.nextUserId)
    (hnot : signedUp db activity.id e = false)
    (hcond : activity.max_participants ≠ 0 ∧
      (participantCount db activity.id : Int) ≥ activity.max_participants) :
    signup_for_activity db n e =
      ((ensure_user db e).1, Except.error ⟨400, "Activity is full"⟩) := by
  unfold signup_for_activity
  rw [hfind]
  simp only [ensure_user_participations, dup_check_none db activity.id e hfresh hnot]
  rw [if_pos]
  exact hcond

lemma signup_of_ok (db : DB) (n e : String) (activity : Activity)
    (hfind : db.activities.find? (fun a => a.name == n) = some activity)
    (hfresh : ∀ p ∈ db.participations, p.user_id < db.nextUserId)
    (hnot : signedUp db activity.id e = false)
    (hcond : ¬ (activity.max_participants ≠ 0 ∧
      (participantCount db activity.id : Int) ≥ activity.max_participants)) :
    signup_for_activity db n e =
      ({ (ensure_user db e).1 with
          participations :=
            db.participations ++
              [⟨db.nextParticipationId, activity.id, (ensure_user db e).2.id⟩],
          nextParticipationId := db.nextParticipationId + 1 },
       Except.ok ("Signed up " ++ e ++ " for " ++ n)) := by
  unfold signup_for_activity
  rw [hfind]
  simp only [ensure_user_participations, ensure_user_nextParticipationId,
    dup_check_none db activity.id e hfresh hnot]
  rw [if_neg]
  exact hcond

lemma unregister_of_no_activity (db : DB) (n e : String)
    (hfind : db.activities.find? (fun a => a.name == n) = none) :
    unregister_from_activity db n e = (db, Except.error ⟨404, "Activity not found"⟩) := by
  unfold unregister_from_activity
  rw [hfind]

lemma unregister_of_user_missing (db : DB) (n e : String) (activity : Activity)
    (hfind : db.activities.find? (fun a => a.name == n) = some activity)
    (hU : db.users.find? (fun u => u.email == e) = none) :
    unregister_from_activity db n e =
      (db, Except.error ⟨400, "Student is not signed up for this activity"⟩) := by
  unfold unregister_from_activity
  rw [hfind]
  simp only [hU]

lemma unregister_of_part_missing (db : DB) (n e : String) (activity : Activity)
    (u : User)
    (hfind : db.activities.find? (fun a => a.name == n) = some activity)
    (hU : db.users.find? (fun u => u.email == e) = some u)
    (hP : db.participations.find?
      (fun p => p.activity_id == activity.id && p.user_id == u.id) = none) :
    unregister_from_activity db n e =
      (db, Except.error ⟨400, "Student is not signed up for this activity"⟩) := by
  unfold unregister_from_activity
  rw [hfind]
  simp only [hU, hP]

lemma unregister_of_found (db : DB) (n e : String) (activity : Activity)
    (u : User) (part : Participation)
    (hfind : db.activities.find? (fun a => a.name == n) = some activity)
    (hU : db.users.find? (fun u => u.email == e) = some u)
    (hP : db.participations.find?
      (fun p => p.activity_id == activity.id && p.user_id == u.id) = some part) :
    unregister_from_activity db n e =
      ({ db with participations :=
          db.participations.filter (fun p => p.id != part.id) },
       Except.ok ("Unregistered " ++ e ++ " from " ++ n)) := by
  unfold unregister_from_activity
  rw [hfind]
  simp only [hU, hP]

lemma signup_fst_activities (db : DB) (n e : String) :
    (signup_for_activity db n e).1.activities = db.activities := by
  unfold signup_for_activity
  cases hfind : db.activities.find? (fun a => a.name == n) with
  | none => rfl
  | some a =>
      simp only []
      cases hdup : (ensure_user db e).1.participations.find?
          (fun p => p.activity_id == a.id && p.user_id == (ensure_user db e).2.id) with
      | some p => exact ensure_user_activities db e
      | none =>
          simp only []
          split
          · exact ensure_user_activities db e
          · exact ensure_user_activities db e

lemma signup_fst_nextActivityId (db : DB) (n e : String) :
    (signup_for_activity db n e).1.nextActivityId = db.nextActivityId := by
  unfold signup_for_activity
  cases hfind : db.activities.find? (fun a => a.name == n) with
  | none => rfl
  | some a =>
      simp only []
      cases hdup : (ensure_user db e).1.participations.find?
          (fun p => p.activity_id == a.id && p.user_id == (ensure_user db e).2.id) with
      | some p => exact ensure_user_nextActivityId db e
      | none =>
          simp only []
          split
          · exact ensure_user_nextActivityId db e
          · exact ensure_user_nextActivityId db e

lemma unregister_frame (db : DB) (n e : String) :
    (unregister_from_activity db n e).1.activities = db.activities ∧
    (unregister_from_activity db n e).1.users = db.users ∧
    (unregister_from_activity db n e).1.nextActivityId = db.nextActivityId ∧
    (unregister_from_activity db n e).1.nextUserId = db.nextUserId ∧
    (unregister_from_activity db n e).1.nextParticipationId = db.nextParticipationId := by
  unfold unregister_from_activity
  cases hfind : db.activities.find? (fun a => a.name == n) with
  | none => exact ⟨rfl, rfl, rfl, rfl, rfl⟩
  | some a =>
      simp only []
      cases hU : db.users.find? (fun u => u.email == e) with
      | none => exact ⟨rfl, rfl, rfl, rfl, rfl⟩
      | some u =>
          simp only []
          cases hP : db.participations.find?
              (fun p => p.activity_id == a.id && p.user_id == u.id) with
          | none => exact ⟨rfl, rfl, rfl, rfl, rfl⟩
          | some part => exact ⟨rfl, rfl, rfl, rfl, rfl⟩

lemma signup_participations_cases (db : DB) (n e : String) :
    (signup_for_activity db n e).1.participations = db.participations ∨
      ∃ activity uid,
        db.activities.find? (fun a => a.name == n) = some activity ∧
        ¬ (activity.max_participants ≠ 0 ∧
           (participantCount db activity.id : Int) ≥ activity.max_participants) ∧
        (signup_for_activity db n e).1.participations =
          db.participations ++ [⟨db.nextParticipationId, activity.id, uid⟩] := by
  cases hfind : db.activities.find? (fun a => a.name == n) with
  | none => rw [signup_of_no_activity db n e hfind]; exact Or.inl rfl
  | some a =>
      unfold signup_for_activity
      rw [hfind]
      simp only []
      cases hdup : (ensure_user db e).1.participations.find?
          (fun p => p.activity_id == a.id && p.user_id == (ensure_user db e).2.id) with
      | some p => exact Or.inl (ensure_user_participations db e)
      | none =>
          simp only []
          split
          · exact Or.inl (ensure_user_participations db e)
          · rename_i hc
            refine Or.inr ⟨a, (ensure_user db e).2.id, rfl, ?_, ?_⟩
            · rw [ensure_user_participations db e] at hc
              exact hc
            · rw [ensure_user_participations db e,
                ensure_user_nextParticipationId db e]

lemma unregister_participations_cases (db : DB) (n e : String) :
    (unregister_from_activity db n e).1.participations = db.participations ∨
      ∃ part : Participation, part ∈ db.participations ∧
        (unregister_from_activity db n e).1.participations =
          db.participations.filter (fun p => p.id != part.id) := by
  unfold unregister_from_activity
  cases hfind : db.activities.find? (fun a => a.name == n) with
  | none => exact Or.inl rfl
  | some a =>
      simp only []
      cases hU : db.users.find? (fun u => u.email == e) with
      | none => exact Or.inl rfl
      | some u =>
          simp only []
          cases hP : db.participations.find?
              (fun p => p.activity_id == a.id && p.user_id == u.id) with
          | none => exact Or.inl rfl
          | some part =>
              refine Or.inr ⟨part, List.mem_of_find?_eq_some hP, ?_⟩
              rfl


/-! ## Claims -/


lemma signup_fst_users_of_found (db : DB) (n e : String) (activity : Activity)
    (hfind : db.activities.find? (fun a => a.name == n) = some activity) :
    (signup_for_activity db n e).1.users = (ensure_user db e).1.users ∧
    (signup_for_activity db n e).1.nextUserId = (ensure_user db e).1.nextUserId := by
  unfold signup_for_activity
  rw [hfind]
  simp only []
  cases hdup : (ensure_user db e).1.participations.find?
      (fun p => p.activity_id == activity.id && p.user_id == (ensure_user db e).2.id) with
  | some p => exact ⟨rfl, rfl⟩
  | none =>
      simp only []
      split
      · exact ⟨rfl, rfl⟩
      · exact ⟨rfl, rfl⟩

/-- C3: for an activity name that matches no `Activity` row, both signup
and unregister return 404 "Activity not found" and leave the store —
all three tables and all counters — unchanged. -/
theorem C3_unknown_activity_not_found (db : DB) (n e : String)
    (habsent : ∀ a ∈ db.activities, a.name ≠ n) :
    signup_for_activity db n e = (db, Except.error ⟨404, "Activity not found"⟩) ∧
    unregister_from_activity db n e = (db, Except.error ⟨404, "Activity not found"⟩) := by
  have hfind : db.activities.find? (fun a => a.name == n) = none := by
    rw [List.find?_eq_none]
    intro a ha
    simpa using habsent a ha
  exact ⟨signup_of_no_activity db n e hfind, unregister_of_no_activity db n e hfind⟩

theorem C3_witness :
    (∀ a ∈ (emptyDB).activities, a.name ≠ "Chess Club") ∧
    signup_for_activity emptyDB "Chess Club" "a@x.com" =
      (emptyDB, Except.error ⟨404, "Activity not found"⟩) ∧
    unregister_from_activity emptyDB "Chess Club" "a@x.com" =
      (emptyDB, Except.error ⟨404, "Activity not found"⟩) :=
  ⟨by simp [emptyDB], C3_unknown_activity_not_found emptyDB "Chess Club" "a@x.com"
      (by simp [emptyDB])⟩

/-- C7: unregistering an email with no `Participation` row for the given
existing activity — whether the `User` row is missing entirely or merely
has no `Participation` for this activity — fails with status 400 and the
message "Student is not signed up for this activity", and the store is
returned unchanged. -/
theorem C7_unregister_not_signed_up (db : DB) (n e : String) (activity : Activity)
    (hfind : db.activities.find? (fun a => a.name == n) = some activity)
    (hnot : signedUp db activity.id e = false) :
    unregister_from_activity db n e =
      (db, Except.error ⟨400, "Student is not signed up for this activity"⟩) := by
  unfold signedUp at hnot
  cases hU : db.users.find? (fun u => u.email == e) with
  | none => exact unregister_of_user_missing db n e activity hfind hU
  | some u =>
      rw [hU] at hnot
      have hnot2 : (db.participations.find?
          (fun p => p.activity_id == activity.id && p.user_id == u.id)).isSome = false := hnot
      cases hP : db.participations.find?
          (fun p => p.activity_id == activity.id && p.user_id == u.id) with
      | none => exact unregister_of_part_missing db n e activity u hfind hU hP
      | some q => rw [hP] at hnot2; simp at hnot2

theorem C7_witness :
    ((⟨[⟨1, "A", none, none, 5⟩], [⟨1, "f"⟩], [], 2, 2, 1⟩ : DB).activities.find?
        (fun a => a.name == "A") = some ⟨1, "A", none, none, 5⟩) ∧
    (signedUp ⟨[⟨1, "A", none, none, 5⟩], [⟨1, "f"⟩], [], 2, 2, 1⟩ 1 "e" = false) ∧
    unregister_from_activity ⟨[⟨1, "A", none, none, 5⟩], [⟨1, "f"⟩], [], 2, 2, 1⟩ "A" "e" =
      (⟨[⟨1, "A", none, none, 5⟩], [⟨1, "f"⟩], [], 2, 2, 1⟩,
       Except.error ⟨400, "Student is not signed up for this activity"⟩) :=
  ⟨rfl, rfl, C7_unregister_not_signed_up _ "A" "e" ⟨1, "A", none, none, 5⟩ rfl rfl⟩

/-- C8: when the email has no `User` row, signup inserts (and commits) the
`User` before the duplicate and capacity checks, and that row is present in
the resulting store whatever the outcome of the signup — also when the
call then fails, e.g. with "Activity is full". -/
theorem C8_user_row_persists (db : DB) (n e : String) (activity : Activity)
    (hfind : db.activities.find? (fun a => a.name == n) = some activity)
    (hnew : db.users.find? (fun u => u.email == e) = none) :
    (signup_for_activity db n e).1.users = db.users ++ [⟨db.nextUserId, e⟩] ∧
    (signup_for_activity db n e).1.nextUserId = db.nextUserId + 1 := by
  have h := signup_fst_users_of_found db n e activity hfind
  rw [ensure_user_of_missing db e hnew] at h
  exact h

theorem C8_witness :
    ((⟨[⟨1, "A", none, none, 1⟩], [⟨1, "e"⟩], [⟨1, 1, 1⟩], 2, 2, 2⟩ : DB).activities.find?
        (fun a => a.name == "A") = some ⟨1, "A", none, none, 1⟩) ∧
    ((⟨[⟨1, "A", none, none, 1⟩], [⟨1, "e"⟩], [⟨1, 1, 1⟩], 2, 2, 2⟩ : DB).users.find?
        (fun u => u.email == "f") = none) ∧
    ((signup_for_activity ⟨[⟨1, "A", none, none, 1⟩], [⟨1, "e"⟩], [⟨1, 1, 1⟩], 2, 2, 2⟩
        "A" "f").2 = Except.error ⟨400, "Activity is full"⟩) ∧
    (signup_for_activity ⟨[⟨1, "A", none, none, 1⟩], [⟨1, "e"⟩], [⟨1, 1, 1⟩], 2, 2, 2⟩
        "A" "f").1.users = [⟨1, "e"⟩, ⟨2, "f"⟩] :=
  ⟨rfl, rfl, rfl, by
    have h := (C8_user_row_persists ⟨[⟨1, "A", none, none, 1⟩], [⟨1, "e"⟩], [⟨1, 1, 1⟩], 2, 2, 2⟩
      "A" "f" ⟨1, "A", none, none, 1⟩ rfl rfl).1
    simpa using h⟩

/-- C4: an activity whose `max_participants` is 0 is treated as unlimited:
signup never fails with "Activity is full" there, and any email that is
not already signed up is accepted, adding one `Participation` row. -/
theorem C4_zero_capacity_unlimited (db : DB) (n e : String) (activity : Activity)
    (hfind : db.activities.find? (fun a => a.name == n) = some activity)
    (hmax : activity.max_participants = 0) :
    (signup_for_activity db n e).2 ≠ Except.error ⟨400, "Activity is full"⟩ ∧
    ((∀ p ∈ db.participations, p.user_id < db.nextUserId) →
      signedUp db activity.id e = false →
      (signup_for_activity db n e).2 = Except.ok ("Signed up " ++ e ++ " for " ++ n) ∧
      (signup_for_activity db n e).1.participations.length =
        db.participations.length + 1) := by
  constructor
  · unfold signup_for_activity
    rw [hfind]
    simp only []
    cases hdup : (ensure_user db e).1.participations.find?
        (fun p => p.activity_id == activity.id && p.user_id == (ensure_user db e).2.id) with
    | some p => simp
    | none =>
        simp only []
        rw [if_neg]
        · simp
        · rw [hmax]; simp
  · intro hfresh hnot
    have hcond : ¬ (activity.max_participants ≠ 0 ∧
        (participantCount db activity.id : Int) ≥ activity.max_participants) := by
      rw [hmax]; simp
    rw [signup_of_ok db n e activity hfind hfresh hnot hcond]
    refine ⟨rfl, by simp⟩

theorem C4_witness :
    ((⟨[⟨1, "A", none, none, 0⟩], [⟨1, "e"⟩], [⟨1, 1, 1⟩], 2, 2, 2⟩ : DB).activities.find?
        (fun a => a.name == "A") = some ⟨1, "A", none, none, 0⟩) ∧
    ((⟨1, "A", none, none, 0⟩ : Activity).max_participants = 0) ∧
    (∀ p ∈ (⟨[⟨1, "A", none, none, 0⟩], [⟨1, "e"⟩], [⟨1, 1, 1⟩], 2, 2, 2⟩ : DB).participations,
        p.user_id < (⟨[⟨1, "A", none, none, 0⟩], [⟨1, "e"⟩], [⟨1, 1, 1⟩], 2, 2, 2⟩ : DB).nextUserId) ∧
    (signedUp ⟨[⟨1, "A", none, none, 0⟩], [⟨1, "e"⟩], [⟨1, 1, 1⟩], 2, 2, 2⟩ 1 "f" = false) ∧
    (signup_for_activity ⟨[⟨1, "A", none, none, 0⟩], [⟨1, "e"⟩], [⟨1, 1, 1⟩], 2, 2, 2⟩
        "A" "f").2 ≠ Except.error ⟨400, "Activity is full"⟩ ∧
    (signup_for_activity ⟨[⟨1, "A", none, none, 0⟩], [⟨1, "e"⟩], [⟨1, 1, 1⟩], 2, 2, 2⟩
        "A" "f").2 = Except.ok ("Signed up " ++ "f" ++ " for " ++ "A") :=
  ⟨rfl, rfl, by decide, rfl,
    (C4_zero_capacity_unlimited ⟨[⟨1, "A", none, none, 0⟩], [⟨1, "e"⟩], [⟨1, 1, 1⟩], 2, 2, 2⟩
      "A" "f" ⟨1, "A", none, none, 0⟩ rfl rfl).1,
    ((C4_zero_capacity_unlimited ⟨[⟨1, "A", none, none, 0⟩], [⟨1, "e"⟩], [⟨1, 1, 1⟩], 2, 2, 2⟩
      "A" "f" ⟨1, "A", none, none, 0⟩ rfl rfl).2 (by decide) rfl).1⟩



/-- C1 counterexample: in a store whose activity "A" has capacity 1 and
exactly 1 participation (by the already signed up email "e"), signup of
"e" does not return the message "Activity is full" claimed for *any*
email at full capacity: the duplicate check fires first and returns
"Student is already signed up". -/
theorem C1_counterexample :
    ((⟨[⟨1, "A", none, none, 1⟩], [⟨1, "e"⟩], [⟨1, 1, 1⟩], 2, 2, 2⟩ : DB).activities.find?
        (fun a => a.name == "A") = some ⟨1, "A", none, none, 1⟩) ∧
    ((⟨1, "A", none, none, 1⟩ : Activity).max_participants ≠ 0) ∧
    ((participantCount ⟨[⟨1, "A", none, none, 1⟩], [⟨1, "e"⟩], [⟨1, 1, 1⟩], 2, 2, 2⟩ 1 : Int) =
      (⟨1, "A", none, none, 1⟩ : Activity).max_participants) ∧
    (signup_for_activity ⟨[⟨1, "A", none, none, 1⟩], [⟨1, "e"⟩], [⟨1, 1, 1⟩], 2, 2, 2⟩
        "A" "e").2 = Except.error ⟨400, "Student is already signed up"⟩ ∧
    "Student is already signed up" ≠ "Activity is full" :=
  ⟨rfl, by decide, by decide, rfl, by decide⟩

/-- C1 (amended: the full-capacity Conflict is only guaranteed for emails
not already signed up, since the duplicate check runs first): for an
existing activity with non-zero capacity and an email not signed up for
it, signup at count = max_participants returns 400 "Activity is full",
and at count = max_participants - 1 it succeeds and appends exactly one
`Participation` row. -/
theorem C1_capacity_boundary (db : DB) (n e : String) (activity : Activity)
    (hfind : db.activities.find? (fun a => a.name == n) = some activity)
    (hmax : activity.max_participants ≠ 0)
    (hfresh : ∀ p ∈ db.participations, p.user_id < db.nextUserId)
    (hnot : signedUp db activity.id e = false) :
    ((participantCount db activity.id : Int) = activity.max_participants →
      (signup_for_activity db n e).2 = Except.error ⟨400, "Activity is full"⟩) ∧
    ((participantCount db activity.id : Int) = activity.max_participants - 1 →
      (signup_for_activity db n e).2 = Except.ok ("Signed up " ++ e ++ " for " ++ n) ∧
      (signup_for_activity db n e).1.participations =
        db.participations ++
          [⟨db.nextParticipationId, activity.id, (ensure_user db e).2.id⟩]) := by
  constructor
  · intro hcount
    rw [signup_of_full db n e activity hfind hfresh hnot ⟨hmax, by omega⟩]
  · intro hcount
    have hcond : ¬ (activity.max_participants ≠ 0 ∧
        (participantCount db activity.id : Int) ≥ activity.max_participants) := by
      rintro ⟨-, hge⟩
      omega
    rw [signup_of_ok db n e activity hfind hfresh hnot hcond]
    exact ⟨rfl, rfl⟩

theorem C1_witness :
    (((⟨[⟨1, "A", none, none, 2⟩], [⟨1, "x"⟩], [⟨1, 1, 1⟩], 2, 2, 2⟩ : DB).activities.find?
        (fun a => a.name == "A") = some ⟨1, "A", none, none, 2⟩) ∧
     ((participantCount ⟨[⟨1, "A", none, none, 2⟩], [⟨1, "x"⟩], [⟨1, 1, 1⟩], 2, 2, 2⟩ 1 : Int) =
       (⟨1, "A", none, none, 2⟩ : Activity).max_participants - 1)) ∧
    (signup_for_activity ⟨[⟨1, "A", none, none, 2⟩], [⟨1, "x"⟩], [⟨1, 1, 1⟩], 2, 2, 2⟩
        "A" "e").2 = Except.ok ("Signed up " ++ "e" ++ " for " ++ "A") :=
  ⟨⟨rfl, by decide⟩,
   ((C1_capacity_boundary ⟨[⟨1, "A", none, none, 2⟩], [⟨1, "x"⟩], [⟨1, 1, 1⟩], 2, 2, 2⟩
      "A" "e" ⟨1, "A", none, none, 2⟩ rfl (by decide) (by decide) rfl).2 (by decide)).1⟩

/-- C2: for an existing activity with spare capacity and an email not yet
signed up for it, the first signup succeeds; repeating the very same call
returns 400 "Student is already signed up" and returns the store of the
first call unchanged (in particular the `Participation` rows are
unchanged). -/
theorem C2_second_signup_conflict (db : DB) (n e : String) (activity : Activity)
    (hfind : db.activities.find? (fun a => a.name == n) = some activity)
    (hfresh : ∀ p ∈ db.participations, p.user_id < db.nextUserId)
    (hnot : signedUp db activity.id e = false)
    (hcap : ¬ (activity.max_participants ≠ 0 ∧
      (participantCount db activity.id : Int) ≥ activity.max_participants)) :
    (signup_for_activity db n e).2 = Except.ok ("Signed up " ++ e ++ " for " ++ n) ∧
    signup_for_activity (signup_for_activity db n e).1 n e =
      ((signup_for_activity db n e).1,
       Except.error ⟨400, "Student is already signed up"⟩) := by
  have h1 := signup_of_ok db n e activity hfind hfresh hnot hcap
  refine ⟨by rw [h1], ?_⟩
  have hfind1 : (signup_for_activity db n e).1.activities.find?
      (fun a => a.name == n) = some activity := by
    rw [signup_fst_activities db n e]; exact hfind
  have hU1 : (signup_for_activity db n e).1.users.find? (fun u => u.email == e)
      = some (ensure_user db e).2 := by
    have husers1 : (signup_for_activity db n e).1.users = (ensure_user db e).1.users := by
      rw [h1]
    rw [husers1]; exact ensure_user_find_self db e
  have heu1 : ensure_user (signup_for_activity db n e).1 e
      = ((signup_for_activity db n e).1, (ensure_user db e).2) :=
    ensure_user_of_found _ e _ hU1
  have hparts1 : (signup_for_activity db n e).1.participations =
      db.participations ++
        [⟨db.nextParticipationId, activity.id, (ensure_user db e).2.id⟩] := by
    rw [h1]
  have hdup1 : (ensure_user (signup_for_activity db n e).1 e).1.participations.find?
      (fun p => p.activity_id == activity.id &&
        p.user_id == (ensure_user (signup_for_activity db n e).1 e).2.id)
      = some ⟨db.nextParticipationId, activity.id, (ensure_user db e).2.id⟩ := by
    rw [heu1]
    show (signup_for_activity db n e).1.participations.find?
      (fun p => p.activity_id == activity.id && p.user_id == (ensure_user db e).2.id)
      = some ⟨db.nextParticipationId, activity.id, (ensure_user db e).2.id⟩
    rw [hparts1, List.find?_append, dup_check_none db activity.id e hfresh hnot]
    simp
  have h2 := signup_of_dup (signup_for_activity db n e).1 n e activity hfind1 _ hdup1
  rw [heu1] at h2
  exact h2

theorem C2_witness :
    (((⟨[⟨1, "A", none, none, 2⟩], [], [], 2, 1, 1⟩ : DB).activities.find?
        (fun a => a.name == "A") = some ⟨1, "A", none, none, 2⟩) ∧
     (signedUp ⟨[⟨1, "A", none, none, 2⟩], [], [], 2, 1, 1⟩ 1 "e" = false)) ∧
    (signup_for_activity ⟨[⟨1, "A", none, none, 2⟩], [], [], 2, 1, 1⟩ "A" "e").2 =
      Except.ok ("Signed up " ++ "e" ++ " for " ++ "A") ∧
    signup_for_activity
        (signup_for_activity ⟨[⟨1, "A", none, none, 2⟩], [], [], 2, 1, 1⟩ "A" "e").1 "A" "e" =
      ((signup_for_activity ⟨[⟨1, "A", none, none, 2⟩], [], [], 2, 1, 1⟩ "A" "e").1,
       Except.error ⟨400, "Student is already signed up"⟩) :=
  ⟨⟨rfl, rfl⟩,
   C2_second_signup_conflict ⟨[⟨1, "A", none, none, 2⟩], [], [], 2, 1, 1⟩ "A" "e"
     ⟨1, "A", none, none, 2⟩ rfl (by decide) rfl (by decide)⟩


/-- C9: `Activity` rows are never created, mutated or deleted by signup or
unregister (both leave the `activity` table and its id counter untouched);
unregister also leaves the `user` table untouched and either leaves the
`participation` table unchanged or deletes exactly the rows carrying the
primary key of one stored participation (the one it found); and the
activities listing returns the store unchanged (it is read-only). -/
theorem C9_activity_table_frame (db : DB) (n e : String) :
    (signup_for_activity db n e).1.activities = db.activities ∧
    (signup_for_activity db n e).1.nextActivityId = db.nextActivityId ∧
    (unregister_from_activity db n e).1.activities = db.activities ∧
    (unregister_from_activity db n e).1.nextActivityId = db.nextActivityId ∧
    (unregister_from_activity db n e).1.users = db.users ∧
    (unregister_from_activity db n e).1.nextUserId = db.nextUserId ∧
    ((unregister_from_activity db n e).1.participations = db.participations ∨
      ∃ part : Participation, part ∈ db.participations ∧
        (unregister_from_activity db n e).1.participations =
          db.participations.filter (fun p => p.id != part.id)) ∧
    (get_activities db).1 = db := by
  obtain ⟨h1, h2, h3, h4, h5⟩ := unregister_frame db n e
  exact ⟨signup_fst_activities db n e, signup_fst_nextActivityId db n e,
    h1, h3, h2, h4, unregister_participations_cases db n e, rfl⟩

lemma seedRows_id_ge (startId : Nat) (a : Activity) (ha : a ∈ seedRows startId) :
    startId ≤ a.id := by
  unfold seedRows at ha
  obtain ⟨x, hx, rfl⟩ := List.mem_map.mp ha
  exact Nat.le_add_right _ _

lemma seed_of_empty (db : DB) (h : db.activities = []) :
    seed_initial_activities_if_needed db =
      { db with activities := seedRows db.nextActivityId,
                nextActivityId := db.nextActivityId + initial.length } := by
  unfold seed_initial_activities_if_needed
  rw [h]

lemma seed_of_nonempty (db : DB) (h : db.activities ≠ []) :
    seed_initial_activities_if_needed db = db := by
  unfold seed_initial_activities_if_needed
  cases ha : db.activities with
  | nil => exact absurd ha h
  | cons a l => rfl

/-- C6: on a store with zero `Activity` rows, seeding inserts exactly the
nine fixed seed activities — their names, descriptions, schedules and
capacities are those of the `initial` list, and (when every participation
row references a previously allocated activity id) each has zero
participants — and leaves the `user` and `participation` tables unchanged;
on a store with at least one `Activity` row of any origin it changes
nothing; and seeding twice in a row equals seeding once, so rows are never
duplicated. -/
theorem C6_seed_idempotent (db : DB) :
    (db.activities = [] →
      (seed_initial_activities_if_needed db).activities = seedRows db.nextActivityId ∧
      (seedRows db.nextActivityId).length = 9 ∧
      (seedRows db.nextActivityId).map
          (fun a => (a.name, a.description, a.schedule, a.max_participants)) =
        initial.map (fun y => (y.1, some y.2.1, some y.2.2.1, y.2.2.2)) ∧
      (seed_initial_activities_if_needed db).users = db.users ∧
      (seed_initial_activities_if_needed db).participations = db.participations ∧
      ((∀ p ∈ db.participations, p.activity_id < db.nextActivityId) →
        ∀ a ∈ (seed_initial_activities_if_needed db).activities,
          participantCount (seed_initial_activities_if_needed db) a.id = 0)) ∧
    (db.activities ≠ [] → seed_initial_activities_if_needed db = db) ∧
    seed_initial_activities_if_needed (seed_initial_activities_if_needed db) =
      seed_initial_activities_if_needed db := by
  refine ⟨?_, seed_of_nonempty db, ?_⟩
  · intro h
    rw [seed_of_empty db h]
    refine ⟨rfl, rfl, rfl, rfl, rfl, ?_⟩
    intro hfk a ha
    unfold participantCount
    simp only []
    rw [List.length_eq_zero]
    rw [List.filter_eq_nil_iff]
    intro p hp
    have h1 := hfk p hp
    have h2 := seedRows_id_ge db.nextActivityId a ha
    simp only [beq_iff_eq]
    omega
  · by_cases h : db.activities = []
    · have h1 := seed_of_empty db h
      have h2 : (seed_initial_activities_if_needed db).activities ≠ [] := by
        rw [h1]
        intro hx
        have hx2 : seedRows db.nextActivityId = [] := hx
        have h9 : (seedRows db.nextActivityId).length = 9 := rfl
        rw [hx2] at h9
        simp at h9
      rw [seed_of_nonempty _ h2]
    · rw [seed_of_nonempty db h]
      exact seed_of_nonempty db h

theorem C6_witness :
    emptyDB.activities = [] ∧
    (seed_initial_activities_if_needed emptyDB).activities =
      seedRows emptyDB.nextActivityId ∧
    seed_initial_activities_if_needed (seed_initial_activities_if_needed emptyDB) =
      seed_initial_activities_if_needed emptyDB :=
  ⟨rfl, ((C6_seed_idempotent emptyDB).1 rfl).1, (C6_seed_idempotent emptyDB).2.2⟩


lemma applyOp_activities (db : DB) (op : Op) :
    (applyOp db op).activities = db.activities := by
  cases op with
  | signup n e => exact signup_fst_activities db n e
  | unregister n e => exact (unregister_frame db n e).1

lemma capInv_applyOp (db : DB) (op : Op)
    (hids : (db.activities.map Activity.id).Nodup)
    (hinv : CapInv db) : CapInv (applyOp db op) := by
  cases op with
  | unregister n e =>
      intro a ha hmax
      simp only [applyOp] at ha ⊢
      rw [(unregister_frame db n e).1] at ha
      unfold participantCount
      rcases unregister_participations_cases db n e with hsame | ⟨part, hmem, hfil⟩
      · rw [hsame]
        exact hinv a ha hmax
      · rw [hfil]
        have hle : ((db.participations.filter (fun p => p.id != part.id)).filter
              (fun p => p.activity_id == a.id)).length ≤
            (db.participations.filter (fun p => p.activity_id == a.id)).length := by
          rw [List.filter_comm]
          exact List.length_filter_le _ _
        have h2 := hinv a ha hmax
        unfold participantCount at h2
        have := Int.ofNat_le.mpr hle
        omega
  | signup n e =>
      intro a ha hmax
      simp only [applyOp] at ha ⊢
      rw [signup_fst_activities db n e] at ha
      unfold participantCount
      rcases signup_participations_cases db n e with hsame | ⟨act, uid, hfind, hcond, happ⟩
      · rw [hsame]
        exact hinv a ha hmax
      · rw [happ, List.filter_append]
        by_cases hid : act.id = a.id
        · have hacta : act ∈ db.activities := List.mem_of_find?_eq_some hfind
          have heq : a = act := List.inj_on_of_nodup_map hids ha hacta hid.symm
          subst heq
          have hfull : ¬ ((participantCount db a.id : Int) ≥ a.max_participants) := by
            intro hge
            exact hcond ⟨by omega, hge⟩
          unfold participantCount at hfull
          have hone : (([(⟨db.nextParticipationId, a.id, uid⟩ : Participation)].filter
              (fun p => p.activity_id == a.id)).length) = 1 := by
            simp
          rw [List.length_append, hone]
          omega
        · have hnone : (([(⟨db.nextParticipationId, act.id, uid⟩ : Participation)].filter
              (fun p => p.activity_id == a.id)).length) = 0 := by
            simp only [List.filter, List.length]
            have : ((⟨db.nextParticipationId, act.id, uid⟩ : Participation).activity_id == a.id)
                = false := by
              simp only [beq_eq_false_iff_ne]
              exact hid
            rw [this]
            rfl
          rw [List.length_append, hnone]
          have h2 := hinv a ha hmax
          unfold participantCount at h2
          omega


/-- C10: starting from any store whose activity primary keys are distinct
and in which every activity with positive capacity has at most
`max_participants` participation rows, any sequence of sequentially
executed signup/unregister calls preserves that bound. -/
theorem C10_sequential_capacity_invariant (db : DB) (ops : List Op)
    (hids : (db.activities.map Activity.id).Nodup)
    (hinv : CapInv db) : CapInv (runOps db ops) := by
  induction ops generalizing db with
  | nil => exact hinv
  | cons op rest ih =>
      have hstep : runOps db (op :: rest) = runOps (applyOp db op) rest := rfl
      rw [hstep]
      refine ih (applyOp db op) ?_ (capInv_applyOp db op hids hinv)
      rw [applyOp_activities db op]
      exact hids

theorem C10_witness :
    ((((⟨[⟨1, "A", none, none, 1⟩], [], [], 2, 1, 1⟩ : DB).activities.map
        Activity.id).Nodup) ∧
     CapInv ⟨[⟨1, "A", none, none, 1⟩], [], [], 2, 1, 1⟩) ∧
    CapInv (runOps ⟨[⟨1, "A", none, none, 1⟩], [], [], 2, 1, 1⟩
      [Op.signup "A" "e", Op.signup "A" "f", Op.unregister "A" "e",
       Op.signup "A" "g"]) :=
  ⟨⟨by decide, by decide⟩,
   C10_sequential_capacity_invariant ⟨[⟨1, "A", none, none, 1⟩], [], [], 2, 1, 1⟩
     [Op.signup "A" "e", Op.signup "A" "f", Op.unregister "A" "e", Op.signup "A" "g"]
     (by decide) (by decide)⟩


/-- C5: for an existing activity with spare capacity and an email not
signed up for it (in a well-formed store), signup succeeds, the following
unregister succeeds and restores the `Participation` table exactly — in
particular no participation of that email for the activity remains — and
a further signup of the same pair succeeds again. -/
theorem C5_signup_unregister_roundtrip (db : DB) (n e : String) (activity : Activity)
    (hfind : db.activities.find? (fun a => a.name == n) = some activity)
    (hWF : WF db)
    (hnot : signedUp db activity.id e = false)
    (hcap : ¬ (activity.max_participants ≠ 0 ∧
      (participantCount db activity.id : Int) ≥ activity.max_participants)) :
    (signup_for_activity db n e).2 = Except.ok ("Signed up " ++ e ++ " for " ++ n) ∧
    (unregister_from_activity (signup_for_activity db n e).1 n e).2 =
      Except.ok ("Unregistered " ++ e ++ " from " ++ n) ∧
    signedUp (unregister_from_activity (signup_for_activity db n e).1 n e).1
      activity.id e = false ∧
    (unregister_from_activity (signup_for_activity db n e).1 n e).1.participations =
      db.participations ∧
    (signup_for_activity
        (unregister_from_activity (signup_for_activity db n e).1 n e).1 n e).2 =
      Except.ok ("Signed up " ++ e ++ " for " ++ n) := by
  obtain ⟨hWFu, hWFp, hWFpu⟩ := hWF
  have h1 := signup_of_ok db n e activity hfind hWFpu hnot hcap
  have hfind1 : (signup_for_activity db n e).1.activities.find?
      (fun a => a.name == n) = some activity := by
    rw [signup_fst_activities db n e]; exact hfind
  have hU1 : (signup_for_activity db n e).1.users.find? (fun u => u.email == e)
      = some (ensure_user db e).2 := by
    have husers1 : (signup_for_activity db n e).1.users = (ensure_user db e).1.users := by
      rw [h1]
    rw [husers1]; exact ensure_user_find_self db e
  have hparts1 : (signup_for_activity db n e).1.participations =
      db.participations ++
        [⟨db.nextParticipationId, activity.id, (ensure_user db e).2.id⟩] := by
    rw [h1]
  have hP1 : (signup_for_activity db n e).1.participations.find?
      (fun p => p.activity_id == activity.id && p.user_id == (ensure_user db e).2.id)
      = some ⟨db.nextParticipationId, activity.id, (ensure_user db e).2.id⟩ := by
    rw [hparts1, List.find?_append, dup_check_none db activity.id e hWFpu hnot]
    simp
  have h2 := unregister_of_found (signup_for_activity db n e).1 n e activity
    (ensure_user db e).2 ⟨db.nextParticipationId, activity.id, (ensure_user db e).2.id⟩
    hfind1 hU1 hP1
  have hparts2 : (unregister_from_activity (signup_for_activity db n e).1 n e).1.participations
      = db.participations := by
    rw [h2]
    show (signup_for_activity db n e).1.participations.filter
        (fun p => p.id != (⟨db.nextParticipationId, activity.id,
          (ensure_user db e).2.id⟩ : Participation).id) = db.participations
    rw [hparts1, List.filter_append]
    have ha : db.participations.filter (fun p => p.id != db.nextParticipationId)
        = db.participations := by
      rw [List.filter_eq_self]
      intro p hp
      have := hWFp p hp
      simp only [bne_iff_ne, ne_eq]
      omega
    have hb : ([⟨db.nextParticipationId, activity.id,
        (ensure_user db e).2.id⟩] : List Participation).filter
          (fun p => p.id != db.nextParticipationId) = [] := by
      simp
    exact by rw [ha, hb, List.append_nil]
  have hU2 : (unregister_from_activity (signup_for_activity db n e).1 n e).1.users.find?
      (fun u => u.email == e) = some (ensure_user db e).2 := by
    rw [(unregister_frame (signup_for_activity db n e).1 n e).2.1]
    exact hU1
  have hsigned2 : signedUp (unregister_from_activity (signup_for_activity db n e).1 n e).1
      activity.id e = false := by
    unfold signedUp
    rw [hU2]
    show ((unregister_from_activity (signup_for_activity db n e).1 n e).1.participations.find?
      (fun p => p.activity_id == activity.id &&
        p.user_id == (ensure_user db e).2.id)).isSome = false
    rw [hparts2, dup_check_none db activity.id e hWFpu hnot]
    rfl
  refine ⟨by rw [h1], by rw [h2], hsigned2, hparts2, ?_⟩
  have hfind2 : (unregister_from_activity (signup_for_activity db n e).1 n e).1.activities.find?
      (fun a => a.name == n) = some activity := by
    rw [(unregister_frame (signup_for_activity db n e).1 n e).1]
    exact hfind1
  have hfresh2 : ∀ p ∈ (unregister_from_activity (signup_for_activity db n e).1 n e).1.participations,
      p.user_id < (unregister_from_activity (signup_for_activity db n e).1 n e).1.nextUserId := by
    rw [hparts2, (unregister_frame (signup_for_activity db n e).1 n e).2.2.2.1]
    have hn1 : (signup_for_activity db n e).1.nextUserId = (ensure_user db e).1.nextUserId := by
      rw [h1]
    rw [hn1]
    intro p hp
    have h3 := hWFpu p hp
    have h4 := ensure_user_nextUserId_ge db e
    omega
  have hcap2 : ¬ (activity.max_participants ≠ 0 ∧
      (participantCount (unregister_from_activity (signup_for_activity db n e).1 n e).1
        activity.id : Int) ≥ activity.max_participants) := by
    unfold participantCount
    rw [hparts2]
    exact hcap
  rw [signup_of_ok (unregister_from_activity (signup_for_activity db n e).1 n e).1
    n e activity hfind2 hfresh2 hsigned2 hcap2]

theorem C5_witness :
    (((⟨[⟨1, "A", none, none, 2⟩], [⟨1, "x"⟩], [⟨1, 1, 1⟩], 2, 2, 2⟩ : DB).activities.find?
        (fun a => a.name == "A") = some ⟨1, "A", none, none, 2⟩) ∧
     WF ⟨[⟨1, "A", none, none, 2⟩], [⟨1, "x"⟩], [⟨1, 1, 1⟩], 2, 2, 2⟩ ∧
     signedUp ⟨[⟨1, "A", none, none, 2⟩], [⟨1, "x"⟩], [⟨1, 1, 1⟩], 2, 2, 2⟩ 1 "e" = false) ∧
    (signup_for_activity ⟨[⟨1, "A", none, none, 2⟩], [⟨1, "x"⟩], [⟨1, 1, 1⟩], 2, 2, 2⟩
        "A" "e").2 = Except.ok ("Signed up " ++ "e" ++ " for " ++ "A") ∧
    (unregister_from_activity
        (signup_for_activity ⟨[⟨1, "A", none, none, 2⟩], [⟨1, "x"⟩], [⟨1, 1, 1⟩], 2, 2, 2⟩
          "A" "e").1 "A" "e").2 = Except.ok ("Unregistered " ++ "e" ++ " from " ++ "A") ∧
    signedUp (unregister_from_activity
        (signup_for_activity ⟨[⟨1, "A", none, none, 2⟩], [⟨1, "x"⟩], [⟨1, 1, 1⟩], 2, 2, 2⟩
          "A" "e").1 "A" "e").1 1 "e" = false ∧
    (unregister_from_activity
        (signup_for_activity ⟨[⟨1, "A", none, none, 2⟩], [⟨1, "x"⟩], [⟨1, 1, 1⟩], 2, 2, 2⟩
          "A" "e").1 "A" "e").1.participations = [⟨1, 1, 1⟩] ∧
    (signup_for_activity (unregister_from_activity
        (signup_for_activity ⟨[⟨1, "A", none, none, 2⟩], [⟨1, "x"⟩], [⟨1, 1, 1⟩], 2, 2, 2⟩
          "A" "e").1 "A" "e").1 "A" "e").2 =
      Except.ok ("Signed up " ++ "e" ++ " for " ++ "A") :=
  ⟨⟨rfl, by decide, rfl⟩,
   (C5_signup_unregister_roundtrip ⟨[⟨1, "A", none, none, 2⟩], [⟨1, "x"⟩], [⟨1, 1, 1⟩], 2, 2, 2⟩
      "A" "e" ⟨1, "A", none, none, 2⟩ rfl (by decide) rfl (by decide)).1,
   (C5_signup_unregister_roundtrip ⟨[⟨1, "A", none, none, 2⟩], [⟨1, "x"⟩], [⟨1, 1, 1⟩], 2, 2, 2⟩
      "A" "e" ⟨1, "A", none, none, 2⟩ rfl (by decide) rfl (by decide)).2.1,
   (C5_signup_unregister_roundtrip ⟨[⟨1, "A", none, none, 2⟩], [⟨1, "x"⟩], [⟨1, 1, 1⟩], 2, 2, 2⟩
      "A" "e" ⟨1, "A", none, none, 2⟩ rfl (by decide) rfl (by decide)).2.2.1,
   (C5_signup_unregister_roundtrip ⟨[⟨1, "A", none, none, 2⟩], [⟨1, "x"⟩], [⟨1, 1, 1⟩], 2, 2, 2⟩
      "A" "e" ⟨1, "A", none, none, 2⟩ rfl (by decide) rfl (by decide)).2.2.2.1,
   (C5_signup_unregister_roundtrip ⟨[⟨1, "A", none, none, 2⟩], [⟨1, "x"⟩], [⟨1, 1, 1⟩], 2, 2, 2⟩
      "A" "e" ⟨1, "A", none, none, 2⟩ rfl (by decide) rfl (by decide)).2.2.2.2⟩

end Mergington
